import Mathlib

/-!
A shallow embedding of the synthetic-incident generator in
`src/AI_model/generate_synthetic_incidents.py`, together with theorems
settling the specification's claims about it.

Modelling conventions:

* Python's `random.Random(seed)` (a Mersenne Twister) is abstracted as a
  stream `g : Nat → Nat` of raw draws plus a position counter; the seed
  determines the stream, so quantifying over all streams covers every seed.
  Each primitive sampling call (`random`, `randint`, `choice`, `choices`)
  consumes exactly one stream element — one call into the underlying
  generator — and maps it into the set of outputs the primitive can
  produce: `random()` yields `k / 2^53` with `k < 2^53` (CPython's exact
  granularity), `randint a b` a uniform integer of `[a, b]`, and
  `choice` / `choices` members of the population (`choices` by scaling one
  `random()` draw by the total cumulative weight and bisecting, capped at
  the last index, as CPython does).
* `datetime.now(UTC)` is modelled by an explicit parameter `now`, the
  clock reading when the dataset is generated; datetimes are minute counts
  (every `timedelta` in the source is a whole number of minutes), and
  `isoformat` is abstracted away — it is injective and order preserving on
  datetimes, so equality and ordering of the serialized timestamps
  coincide with equality and ordering of the minute counts.
* Python floats are modelled as exact rationals; `round(x, n)` is
  round-half-to-even at `n` decimal digits, on rationals.
* Python dict lookup raises `KeyError` on a missing key; each table
  becomes a total function whose final `else` branch returns the table's
  last entry. The generator only ever applies a table to keys drawn from
  the table's own key set, so the difference is unobservable in the
  theorems below.
-/

/-! ## Static reference tables (module-level constants of the source) -/

def CATEGORIES : List String :=
  ["Traffic", "Cybersecurity", "Public Safety", "Utilities", "Environmental"]

def SEVERITIES : List String := ["low", "medium", "high", "critical"]

def STATUSES : List String := ["open", "acknowledged", "resolved"]

def LOCATIONS (category : String) : List String :=
  if category = "Traffic" then
    ["Central Station", "Ring Road East", "Airport Tunnel", "Harbour Bridge"]
  else if category = "Cybersecurity" then
    ["Datacenter West", "Civic Cloud Cluster", "Identity Gateway", "E-services API"]
  else if category = "Public Safety" then
    ["Museum Quarter", "City Plaza", "Riverfront", "Stadium District"]
  else if category = "Utilities" then
    ["Water Treatment Plant", "North Power Substation", "Waste Processing Hub",
      "District Heating Loop"]
  else
    ["Canal District", "Urban Forest", "Industrial Park", "Riverside Wetlands"]

def SENSOR_IDS (category : String) : List String :=
  if category = "Traffic" then ["traffic-001", "traffic-014", "traffic-027", "traffic-042"]
  else if category = "Cybersecurity" then ["sec-201", "sec-237", "sec-448", "sec-509"]
  else if category = "Public Safety" then ["ps-118", "ps-204", "ps-317", "ps-466"]
  else if category = "Utilities" then ["util-031", "util-066", "util-082", "util-119"]
  else ["env-441", "env-552", "env-618", "env-733"]

def ROOT_CAUSES : List String :=
  ["Hardware fault", "Human error", "External attack", "Weather related",
    "Scheduled maintenance", "Supply disruption", "Sensor malfunction", "Network congestion"]

def TITLES (category : String) : String :=
  if category = "Traffic" then "Traffic congestion alert"
  else if category = "Cybersecurity" then "Unauthorized access attempt"
  else if category = "Public Safety" then "Public safety anomaly"
  else if category = "Utilities" then "Utilities infrastructure warning"
  else "Environmental quality deviation"

def DESCRIPTIONS (category : String) : String :=
  if category = "Traffic" then "Generated from city mobility telemetry feed."
  else if category = "Cybersecurity" then "Generated from perimeter security analytics."
  else if category = "Public Safety" then "Generated from surveillance anomaly detection."
  else if category = "Utilities" then "Generated from utilities SCADA monitoring."
  else "Generated from distributed environmental sensors."

def IMPACTS (category : String) : String :=
  if category = "Traffic" then "Potential delays across connected routes."
  else if category = "Cybersecurity" then "Possible disruption to digital citizen services."
  else if category = "Public Safety" then "On-site response team recommended."
  else if category = "Utilities" then "Utility delivery stability under review."
  else "Environmental compliance threshold exceeded."

def SEVERITY_WEIGHTS (category : String) : List ℚ :=
  if category = "Traffic" then [0.18, 0.39, 0.31, 0.12]
  else if category = "Cybersecurity" then [0.1, 0.3, 0.37, 0.23]
  else if category = "Public Safety" then [0.22, 0.33, 0.3, 0.15]
  else if category = "Utilities" then [0.28, 0.38, 0.24, 0.1]
  else [0.34, 0.4, 0.2, 0.06]

def STATUS_WEIGHTS (severity : String) : List ℚ :=
  if severity = "low" then [0.55, 0.25, 0.2]
  else if severity = "medium" then [0.33, 0.33, 0.34]
  else if severity = "high" then [0.22, 0.32, 0.46]
  else [0.12, 0.28, 0.6]

def FALSE_POSITIVE_PROBABILITY (severity : String) : ℚ :=
  if severity = "low" then 0.26
  else if severity = "medium" then 0.14
  else if severity = "high" then 0.07
  else 0.03

/-- `(vehicle_count bounds, avg_speed_kmh bounds)` per severity. -/
def TRAFFIC_PAYLOAD_RANGES (severity : String) : (Int × Int) × (ℚ × ℚ) :=
  if severity = "low" then ((240, 720), (26.0, 38.0))
  else if severity = "medium" then ((680, 1280), (16.0, 26.0))
  else if severity = "high" then ((980, 1560), (10.0, 18.0))
  else ((1280, 1850), (4.0, 11.0))

/-- `(failed_attempts bounds, unique_ips bounds)` per severity. -/
def CYBER_PAYLOAD_RANGES (severity : String) : (Int × Int) × (Int × Int) :=
  if severity = "low" then ((45, 140), (4, 12))
  else if severity = "medium" then ((140, 360), (8, 24))
  else if severity = "high" then ((360, 760), (18, 44))
  else ((720, 1200), (32, 70))

def PUBLIC_SAFETY_ANOMALY_RANGE (severity : String) : ℚ × ℚ :=
  if severity = "low" then (0.32, 0.5)
  else if severity = "medium" then (0.5, 0.7)
  else if severity = "high" then (0.7, 0.88)
  else (0.85, 0.97)

def UTILITIES_CHLORINE_RANGE (severity : String) : ℚ × ℚ :=
  if severity = "low" then (0.8, 1.3)
  else if severity = "medium" then (0.6, 1.6)
  else if severity = "high" then (0.45, 1.8)
  else (0.3, 2.0)

def ENVIRONMENTAL_PM25_RANGE (severity : String) : ℚ × ℚ :=
  if severity = "low" then (14.0, 32.0)
  else if severity = "medium" then (28.0, 60.0)
  else if severity = "high" then (54.0, 96.0)
  else (90.0, 150.0)

def DATASET_SIZE : Nat := 1500

def RNG_SEED : Nat := 20241202

/-! ## The data model -/

/-- The category-specific numeric payload of a sensor measurement. The
source builds one of five dict shapes; the closed set of shapes becomes an
inductive with one constructor per category. -/
inductive Payload where
  | traffic (vehicle_count : Int) (avg_speed_kmh : ℚ)
  | cyber (failed_attempts : Int) (unique_ips : Int)
  | publicSafety (anomaly_score : ℚ)
  | utilities (chlorine_ppm : ℚ) (ph : ℚ)
  | environmental (pm2_5 : ℚ)
deriving DecidableEq

/-- The nested `sensor_measurement` dict of the source. -/
structure SensorMeasurement where
  sensor_id : String
  type : String
  status : String
  captured_at : Int
  payload : Payload
deriving DecidableEq

/-- The frozen `IncidentRecord` dataclass (field for field). -/
structure IncidentRecord where
  id : Int
  title : String
  category : String
  severity : String
  status : String
  detected_at : Int
  acknowledged_at : Option Int
  resolved_at : Option Int
  location : String
  description : String
  impact : String
  root_cause : Option String
  sensor_measurement : SensorMeasurement
deriving DecidableEq

/-! ## The random generator and its primitives -/

/-- The seeded generator: an abstract stream of raw draws and the number of
draws consumed so far. -/
structure RNG where
  g : Nat → Nat
  pos : Nat

def TWO53 : Nat := 2 ^ 53

/-- One `rng.random()` call: CPython returns `k / 2^53` with `0 ≤ k < 2^53`. -/
def randomUnit (rng : RNG) : ℚ × RNG :=
  (((rng.g rng.pos % TWO53 : Nat) : ℚ) / (TWO53 : ℚ), ⟨rng.g, rng.pos + 1⟩)

/-- One `rng.randint(a, b)` call: a uniform member of `[a, b]`. -/
def randint (a b : Int) (rng : RNG) : Int × RNG :=
  (a + ((rng.g rng.pos % (b + 1 - a).toNat : Nat) : Int), ⟨rng.g, rng.pos + 1⟩)

/-- One `rng.choice(xs)` call: `xs[_randbelow(len(xs))]`. -/
def pyChoice (xs : List String) (rng : RNG) : String × RNG :=
  (xs.getD (rng.g rng.pos % xs.length) "", ⟨rng.g, rng.pos + 1⟩)

/-- Cumulative sums of the weights, as `itertools.accumulate` yields them
inside `Random.choices`. -/
def cumWeights (acc : ℚ) : List ℚ → List ℚ
  | [] => []
  | w :: ws => (acc + w) :: cumWeights (acc + w) ws

/-- One `rng.choices(xs, weights=ws, k=1)[0]` call: one `random()` draw
scaled by the total cumulative weight, located by right bisection over the
(sorted, for nonnegative weights) cumulative list, the search capped at
index `len(xs) - 1` exactly as CPython caps it; on a sorted prefix, right
bisection returns the count of entries `≤ x`. -/
def pyChoices (xs : List String) (weights : List ℚ) (rng : RNG) : String × RNG :=
  let u := (randomUnit rng).1
  let cum := cumWeights 0 weights
  let total := cum.getLastD 0
  let x := u * total
  let idx := (cum.take (xs.length - 1)).countP (fun c => decide (c ≤ x))
  (xs.getD idx "", (randomUnit rng).2)

/-- `rng.uniform(a, b) = a + (b - a) * random()`. -/
def pyUniform (a b : ℚ) (rng : RNG) : ℚ × RNG :=
  (a + (b - a) * (randomUnit rng).1, (randomUnit rng).2)

/-- Round to the nearest integer, ties to even, as Python `round` behaves
on exact values. -/
def roundHalfEven (q : ℚ) : Int :=
  if q - ⌊q⌋ < 1 / 2 then ⌊q⌋
  else if 1 / 2 < q - ⌊q⌋ then ⌊q⌋ + 1
  else if ⌊q⌋ % 2 = 0 then ⌊q⌋ else ⌊q⌋ + 1

/-- Python `round(x, ndigits)` on exact rationals. -/
def pyRound (q : ℚ) (ndigits : Nat) : ℚ :=
  ((roundHalfEven (q * (10 : ℚ) ^ ndigits) : ℚ)) / (10 : ℚ) ^ ndigits

/-! ## The sampling helpers of the source, in source order -/

def _pick_severity (category : String) (rng : RNG) : String × RNG :=
  pyChoices SEVERITIES (SEVERITY_WEIGHTS category) rng

def _pick_status (severity : String) (rng : RNG) : String × RNG :=
  pyChoices STATUSES (STATUS_WEIGHTS severity) rng

/-- `_detected_at`: `datetime.now(UTC)` is the explicit parameter `now`. -/
def _detected_at (now : Int) (index : Nat) (rng : RNG) : Int × RNG :=
  let window_days : Int := 90
  let m := randint 0 (window_days * 24 * 60) rng
  (now - (m.1 + (index : Int) * 3), m.2)

/-- The `ack_bounds` dict local to `_acknowledged_and_resolved`. -/
def ack_bounds (severity : String) : Int × Int :=
  if severity = "low" then (45, 360)
  else if severity = "medium" then (30, 180)
  else if severity = "high" then (10, 90)
  else (3, 45)

/-- The `res_bounds` dict local to `_acknowledged_and_resolved`. -/
def res_bounds (severity : String) : Int × Int :=
  if severity = "low" then (240, 1440)
  else if severity = "medium" then (180, 960)
  else if severity = "high" then (120, 720)
  else (60, 480)

def _acknowledged_and_resolved (status severity : String) (detected_at : Int)
    (rng : RNG) : (Option Int × Option Int) × RNG :=
  if status = "open" then ((none, none), rng)
  else
    let a := randint (ack_bounds severity).1 (ack_bounds severity).2 rng
    let acknowledged := detected_at + a.1
    if status = "acknowledged" then ((some acknowledged, none), a.2)
    else
      let b := randint (res_bounds severity).1 (res_bounds severity).2 a.2
      ((some acknowledged, some (acknowledged + b.1)), b.2)

def _root_cause (severity : String) (false_positive : Bool) (rng : RNG) :
    Option String × RNG :=
  if false_positive then (none, rng)
  else
    let c := pyChoice ROOT_CAUSES rng
    (some c.1, c.2)

def _choose_location (category : String) (rng : RNG) : String × RNG :=
  pyChoice (LOCATIONS category) rng

def _choose_title (category : String) : String := TITLES category

def _choose_description (category : String) : String := DESCRIPTIONS category

def _choose_impact (category severity : String) : String :=
  if severity = "high" ∨ severity = "critical" then
    IMPACTS category ++ " Escalation priority elevated."
  else IMPACTS category

def _sensor_status (severity : String) (false_positive : Bool) (rng : RNG) :
    String × RNG :=
  if false_positive then pyChoices ["healthy", "warning"] [0.7, 0.3] rng
  else if severity = "critical" then pyChoices ["alert", "warning"] [0.8, 0.2] rng
  else if severity = "high" then
    pyChoices ["alert", "warning", "healthy"] [0.5, 0.35, 0.15] rng
  else if severity = "medium" then
    pyChoices ["warning", "healthy", "alert"] [0.55, 0.35, 0.1] rng
  else pyChoices ["healthy", "warning"] [0.75, 0.25] rng

def _traffic_payload (severity : String) (rng : RNG) : Payload × RNG :=
  let bounds := TRAFFIC_PAYLOAD_RANGES severity
  let vc := randint bounds.1.1 bounds.1.2 rng
  let sp := pyUniform bounds.2.1 bounds.2.2 vc.2
  (Payload.traffic vc.1 (pyRound sp.1 1), sp.2)

def _cyber_payload (severity : String) (rng : RNG) : Payload × RNG :=
  let bounds := CYBER_PAYLOAD_RANGES severity
  let fa := randint bounds.1.1 bounds.1.2 rng
  let ui := randint bounds.2.1 bounds.2.2 fa.2
  (Payload.cyber fa.1 ui.1, ui.2)

def _public_safety_payload (severity : String) (rng : RNG) : Payload × RNG :=
  let a := pyUniform (PUBLIC_SAFETY_ANOMALY_RANGE severity).1
    (PUBLIC_SAFETY_ANOMALY_RANGE severity).2 rng
  (Payload.publicSafety (pyRound a.1 2), a.2)

def _utilities_payload (severity : String) (rng : RNG) : Payload × RNG :=
  let c := pyUniform (UTILITIES_CHLORINE_RANGE severity).1
    (UTILITIES_CHLORINE_RANGE severity).2 rng
  let p := pyUniform 6.5 8.3 c.2
  (Payload.utilities (pyRound c.1 2) (pyRound p.1 2), p.2)

def _environmental_payload (severity : String) (rng : RNG) : Payload × RNG :=
  let pm := pyUniform (ENVIRONMENTAL_PM25_RANGE severity).1
    (ENVIRONMENTAL_PM25_RANGE severity).2 rng
  (Payload.environmental (pyRound pm.1 1), pm.2)

def _sensor_payload (category severity : String) (rng : RNG) : Payload × RNG :=
  if category = "Traffic" then _traffic_payload severity rng
  else if category = "Cybersecurity" then _cyber_payload severity rng
  else if category = "Public Safety" then _public_safety_payload severity rng
  else if category = "Utilities" then _utilities_payload severity rng
  else _environmental_payload severity rng

def _sensor_measurement (category severity : String) (detected_at : Int)
    (false_positive : Bool) (rng : RNG) : SensorMeasurement × RNG :=
  let sid := pyChoice (SENSOR_IDS category) rng
  let st := _sensor_status severity false_positive sid.2
  let cap := randint 1 12 st.2
  let payload := _sensor_payload category severity cap.2
  (⟨sid.1, category, st.1, detected_at - cap.1, payload.1⟩, payload.2)

/-- `_build_record`. The keyword arguments of the `IncidentRecord(...)` call
in the source evaluate left to right, so after the false-positive draw the
generator is consumed by: acknowledged/resolved, location, root cause,
sensor measurement — in that order. -/
def _build_record (now : Int) (index : Nat) (rng : RNG) : IncidentRecord × RNG :=
  let c := pyChoice CATEGORIES rng
  let category := c.1
  let s := _pick_severity category c.2
  let severity := s.1
  let st := _pick_status severity s.2
  let status := st.1
  let d := _detected_at now index st.2
  let detected_at := d.1
  let u := randomUnit d.2
  let false_positive := decide (u.1 < FALSE_POSITIVE_PROBABILITY severity)
  let ar := _acknowledged_and_resolved status severity detected_at u.2
  let loc := _choose_location category ar.2
  let rc := _root_cause severity false_positive loc.2
  let sm := _sensor_measurement category severity detected_at false_positive rc.2
  (⟨1000 + (index : Int), _choose_title category, category, severity, status,
    detected_at, ar.1.1, ar.1.2, loc.1, _choose_description category,
    _choose_impact category severity, rc.1, sm.1⟩, sm.2)

/-- The list comprehension of `generate_dataset`: the single generator is
threaded through the records in index order. -/
def _build_records (now : Int) (index count : Nat) (rng : RNG) : List IncidentRecord :=
  match count with
  | 0 => []
  | Nat.succ k =>
      let r := _build_record now index rng
      r.1 :: _build_records now (index + 1) k r.2

/-- `generate_dataset(size, seed)`: `random.Random(seed)` is abstracted as
the draw stream `g` starting at position 0, and the wall clock reading as
`now`. -/
def generate_dataset (now : Int) (size : Nat) (g : Nat → Nat) : List IncidentRecord :=
  _build_records now 0 size ⟨g, 0⟩

/-! ## Facts about the sampling primitives -/

theorem randint_bounds (a b : Int) (rng : RNG) (h : a ≤ b) :
    a ≤ (randint a b rng).1 ∧ (randint a b rng).1 ≤ b := by
  unfold randint
  have h1 : 0 < (b + 1 - a).toNat := by omega
  have h2 : rng.g rng.pos % (b + 1 - a).toNat < (b + 1 - a).toNat := Nat.mod_lt _ h1
  constructor <;> simp only <;> omega

theorem randomUnit_bounds (rng : RNG) :
    0 ≤ (randomUnit rng).1 ∧ (randomUnit rng).1 < 1 := by
  have hM : (0 : ℚ) < ((TWO53 : Nat) : ℚ) := by
    have : 0 < TWO53 := by simp [TWO53]
    exact_mod_cast this
  unfold randomUnit
  constructor
  · positivity
  · rw [div_lt_one hM]
    exact_mod_cast Nat.mod_lt _ (by simp [TWO53])

theorem pyUniform_bounds (a b : ℚ) (rng : RNG) (h : a ≤ b) :
    a ≤ (pyUniform a b rng).1 ∧ (pyUniform a b rng).1 ≤ b := by
  obtain ⟨h0, h1⟩ := randomUnit_bounds rng
  constructor
  · show a ≤ a + (b - a) * (randomUnit rng).1
    nlinarith
  · show a + (b - a) * (randomUnit rng).1 ≤ b
    nlinarith

theorem pyChoice_mem (xs : List String) (rng : RNG) (h : xs ≠ []) :
    (pyChoice xs rng).1 ∈ xs := by
  have hlen : 0 < xs.length := List.length_pos.mpr h
  have hm : rng.g rng.pos % xs.length < xs.length := Nat.mod_lt _ hlen
  unfold pyChoice
  simp only
  rw [List.getD_eq_getElem _ _ hm]
  exact List.getElem_mem _

theorem pyChoices_mem (xs : List String) (weights : List ℚ) (rng : RNG) (h : xs ≠ []) :
    (pyChoices xs weights rng).1 ∈ xs := by
  have hlen : 0 < xs.length := List.length_pos.mpr h
  have hc1 : ((cumWeights 0 weights).take (xs.length - 1)).countP
      (fun c => decide (c ≤ (randomUnit rng).1 * (cumWeights 0 weights).getLastD 0))
      ≤ ((cumWeights 0 weights).take (xs.length - 1)).length := List.countP_le_length _
  have hc2 : ((cumWeights 0 weights).take (xs.length - 1)).length ≤ xs.length - 1 := by
    rw [List.length_take]; omega
  have hidx : ((cumWeights 0 weights).take (xs.length - 1)).countP
      (fun c => decide (c ≤ (randomUnit rng).1 * (cumWeights 0 weights).getLastD 0))
      < xs.length := by omega
  unfold pyChoices
  simp only
  rw [List.getD_eq_getElem _ _ hidx]
  exact List.getElem_mem _

theorem roundHalfEven_bounds (q : ℚ) (A B : Int) (hA : (A : ℚ) ≤ q) (hB : q ≤ (B : ℚ)) :
    A ≤ roundHalfEven q ∧ roundHalfEven q ≤ B := by
  have hfA : A ≤ ⌊q⌋ := Int.le_floor.mpr hA
  have hfB : ⌊q⌋ ≤ B := by
    have h1 : ⌊q⌋ ≤ ⌊(B : ℚ)⌋ := Int.floor_le_floor hB
    simpa using h1
  have hfloor : (⌊q⌋ : ℚ) ≤ q := Int.floor_le q
  unfold roundHalfEven
  split_ifs with h1 h2 h3
  · exact ⟨hfA, hfB⟩
  · refine ⟨by omega, ?_⟩
    by_contra hc
    have hBf : B ≤ ⌊q⌋ := by omega
    have : (B : ℚ) ≤ (⌊q⌋ : ℚ) := by exact_mod_cast hBf
    linarith
  · exact ⟨hfA, hfB⟩
  · refine ⟨by omega, ?_⟩
    by_contra hc
    have hBf : B ≤ ⌊q⌋ := by omega
    have : (B : ℚ) ≤ (⌊q⌋ : ℚ) := by exact_mod_cast hBf
    have hq : q - ⌊q⌋ = 1 / 2 := le_antisymm (not_lt.mp h2) (not_lt.mp h1)
    linarith

theorem pyRound_bounds (q a b : ℚ) (d : Nat) (A B : Int)
    (ha : (A : ℚ) = a * (10 : ℚ) ^ d) (hb : (B : ℚ) = b * (10 : ℚ) ^ d)
    (h1 : a ≤ q) (h2 : q ≤ b) : a ≤ pyRound q d ∧ pyRound q d ≤ b := by
  have hpow : (0 : ℚ) < (10 : ℚ) ^ d := by positivity
  have hA : (A : ℚ) ≤ q * (10 : ℚ) ^ d := by
    rw [ha]; exact mul_le_mul_of_nonneg_right h1 hpow.le
  have hB : q * (10 : ℚ) ^ d ≤ (B : ℚ) := by
    rw [hb]; exact mul_le_mul_of_nonneg_right h2 hpow.le
  obtain ⟨l, u⟩ := roundHalfEven_bounds _ A B hA hB
  unfold pyRound
  constructor
  · rw [le_div_iff₀ hpow, ← ha]
    exact_mod_cast l
  · rw [div_le_iff₀ hpow, ← hb]
    exact_mod_cast u

/-! ## Decomposition of one record build

Named projections of the draw chain inside `_build_record`; every equation
below holds definitionally, and `build_record_decomp` certifies that the
chain reproduces `_build_record` exactly. -/

def catOf (rng : RNG) : String := (pyChoice CATEGORIES rng).1

def rngAfterCat (rng : RNG) : RNG := (pyChoice CATEGORIES rng).2

def sevOf (rng : RNG) : String := (_pick_severity (catOf rng) (rngAfterCat rng)).1

def rngAfterSev (rng : RNG) : RNG := (_pick_severity (catOf rng) (rngAfterCat rng)).2

def statOf (rng : RNG) : String := (_pick_status (sevOf rng) (rngAfterSev rng)).1

def rngAfterStat (rng : RNG) : RNG := (_pick_status (sevOf rng) (rngAfterSev rng)).2

def detOf (now : Int) (index : Nat) (rng : RNG) : Int :=
  (_detected_at now index (rngAfterStat rng)).1

def rngAfterDet (rng : RNG) : RNG := (_detected_at 0 0 (rngAfterStat rng)).2

def fpOf (rng : RNG) : Bool :=
  decide ((randomUnit (rngAfterDet rng)).1 < FALSE_POSITIVE_PROBABILITY (sevOf rng))

def rngAfterFp (rng : RNG) : RNG := (randomUnit (rngAfterDet rng)).2

def arOf (now : Int) (index : Nat) (rng : RNG) : (Option Int × Option Int) × RNG :=
  _acknowledged_and_resolved (statOf rng) (sevOf rng) (detOf now index rng) (rngAfterFp rng)

def locOf (now : Int) (index : Nat) (rng : RNG) : String × RNG :=
  _choose_location (catOf rng) (arOf now index rng).2

def rcOf (now : Int) (index : Nat) (rng : RNG) : Option String × RNG :=
  _root_cause (sevOf rng) (fpOf rng) (locOf now index rng).2

def smOf (now : Int) (index : Nat) (rng : RNG) : SensorMeasurement × RNG :=
  _sensor_measurement (catOf rng) (sevOf rng) (detOf now index rng) (fpOf rng)
    (rcOf now index rng).2

set_option maxHeartbeats 2000000 in
theorem build_record_decomp (now : Int) (index : Nat) (rng : RNG) :
    _build_record now index rng =
      (⟨1000 + (index : Int), _choose_title (catOf rng), catOf rng, sevOf rng, statOf rng,
        detOf now index rng, (arOf now index rng).1.1, (arOf now index rng).1.2,
        (locOf now index rng).1, _choose_description (catOf rng),
        _choose_impact (catOf rng) (sevOf rng), (rcOf now index rng).1,
        (smOf now index rng).1⟩, (smOf now index rng).2) := rfl

/-! ## Facts about the static tables -/

theorem CATEGORIES_ne_nil : CATEGORIES ≠ [] := by simp [CATEGORIES]

theorem SEVERITIES_ne_nil : SEVERITIES ≠ [] := by simp [SEVERITIES]

theorem STATUSES_ne_nil : STATUSES ≠ [] := by simp [STATUSES]

theorem LOCATIONS_ne_nil (category : String) : LOCATIONS category ≠ [] := by
  unfold LOCATIONS; split_ifs <;> simp

theorem SENSOR_IDS_ne_nil (category : String) : SENSOR_IDS category ≠ [] := by
  unfold SENSOR_IDS; split_ifs <;> simp

theorem ROOT_CAUSES_ne_nil : ROOT_CAUSES ≠ [] := by simp [ROOT_CAUSES]

theorem ack_bounds_facts (severity : String) :
    1 ≤ (ack_bounds severity).1 ∧ (ack_bounds severity).1 ≤ (ack_bounds severity).2 := by
  unfold ack_bounds; split_ifs <;> exact ⟨by norm_num, by norm_num⟩

theorem res_bounds_facts (severity : String) :
    1 ≤ (res_bounds severity).1 ∧ (res_bounds severity).1 ≤ (res_bounds severity).2 := by
  unfold res_bounds; split_ifs <;> exact ⟨by norm_num, by norm_num⟩

theorem catOf_mem (rng : RNG) : catOf rng ∈ CATEGORIES :=
  pyChoice_mem CATEGORIES rng CATEGORIES_ne_nil

theorem sevOf_mem (rng : RNG) : sevOf rng ∈ SEVERITIES :=
  pyChoices_mem SEVERITIES (SEVERITY_WEIGHTS (catOf rng)) (rngAfterCat rng) SEVERITIES_ne_nil

theorem statOf_mem (rng : RNG) : statOf rng ∈ STATUSES :=
  pyChoices_mem STATUSES (STATUS_WEIGHTS (sevOf rng)) (rngAfterSev rng) STATUSES_ne_nil

/-! ## Structure of the generated list -/

theorem length_build_records (now : Int) (count : Nat) :
    ∀ (index : Nat) (rng : RNG), (_build_records now index count rng).length = count := by
  induction count with
  | zero => intro i rng; rfl
  | succ k ih => intro i rng; simp only [_build_records, List.length_cons, ih]

theorem getElem?_build_records (now : Int) (count : Nat) :
    ∀ (index k : Nat) (rng : RNG) (r : IncidentRecord),
      (_build_records now index count rng)[k]? = some r →
      ∃ rng2, r = (_build_record now (index + k) rng2).1 := by
  induction count with
  | zero => intro i k rng r h; simp [_build_records] at h
  | succ m ih =>
      intro i k rng r h
      rw [show _build_records now i (m + 1) rng
          = (_build_record now i rng).1
            :: _build_records now (i + 1) m (_build_record now i rng).2 from rfl] at h
      match k with
      | 0 =>
          rw [List.getElem?_cons_zero] at h
          exact ⟨rng, by rw [Nat.add_zero]; exact (Option.some.inj h).symm⟩
      | Nat.succ k2 =>
          rw [List.getElem?_cons_succ] at h
          obtain ⟨rng2, hr⟩ := ih (i + 1) k2 _ r h
          refine ⟨rng2, ?_⟩
          rw [show i + (k2 + 1) = (i + 1) + k2 from by omega]
          exact hr

theorem mem_generate_dataset (now : Int) (n : Nat) (g : Nat → Nat) (r : IncidentRecord)
    (h : r ∈ generate_dataset now n g) : ∃ i rng2, r = (_build_record now i rng2).1 := by
  obtain ⟨k, hk⟩ := List.mem_iff_getElem?.mp h
  obtain ⟨rng2, hr⟩ := getElem?_build_records now n 0 k ⟨g, 0⟩ r hk
  exact ⟨0 + k, rng2, hr⟩

/-! ## Component-level facts -/

theorem ack_res_le (status severity : String) (d : Int) (rng : RNG) :
    (∀ a, (_acknowledged_and_resolved status severity d rng).1.1 = some a → d ≤ a) ∧
    (∀ a b, (_acknowledged_and_resolved status severity d rng).1.1 = some a →
      (_acknowledged_and_resolved status severity d rng).1.2 = some b → a ≤ b) := by
  obtain ⟨ha1, ha2⟩ := ack_bounds_facts severity
  obtain ⟨hr1, hr2⟩ := res_bounds_facts severity
  obtain ⟨hk1, hk2⟩ := randint_bounds (ack_bounds severity).1 (ack_bounds severity).2 rng ha2
  obtain ⟨hs1, hs2⟩ := randint_bounds (res_bounds severity).1 (res_bounds severity).2
    (randint (ack_bounds severity).1 (ack_bounds severity).2 rng).2 hr2
  simp only [_acknowledged_and_resolved]
  split_ifs with h1 h2
  · simp
  · constructor
    · intro a ha
      simp only [Prod.fst, Option.some.injEq] at ha
      omega
    · intro a b ha hb
      simp at hb
  · constructor
    · intro a ha
      simp only [Prod.fst, Option.some.injEq] at ha
      omega
    · intro a b ha hb
      simp only [Prod.fst, Prod.snd, Option.some.injEq] at ha hb
      omega

theorem ack_res_isSome (status severity : String) (d : Int) (rng : RNG)
    (hst : status ∈ STATUSES) :
    ((_acknowledged_and_resolved status severity d rng).1.1.isSome = true
      ↔ (status = "acknowledged" ∨ status = "resolved")) ∧
    ((_acknowledged_and_resolved status severity d rng).1.2.isSome = true
      ↔ status = "resolved") := by
  simp only [STATUSES, List.mem_cons, List.not_mem_nil, or_false] at hst
  rcases hst with h | h | h <;> subst h <;> simp [_acknowledged_and_resolved]

theorem root_cause_none_iff (severity : String) (fp : Bool) (rng : RNG) :
    ((_root_cause severity fp rng).1 = none ↔ fp = true) := by
  cases fp <;> simp [_root_cause]

theorem choose_location_mem (category : String) (rng : RNG) :
    (_choose_location category rng).1 ∈ LOCATIONS category :=
  pyChoice_mem (LOCATIONS category) rng (LOCATIONS_ne_nil category)

theorem sensor_captured_lt (category severity : String) (d : Int) (fp : Bool) (rng : RNG) :
    (_sensor_measurement category severity d fp rng).1.captured_at < d := by
  obtain ⟨h1, h2⟩ := randint_bounds 1 12
    (_sensor_status severity fp (pyChoice (SENSOR_IDS category) rng).2).2 (by norm_num)
  show d - (randint 1 12
    (_sensor_status severity fp (pyChoice (SENSOR_IDS category) rng).2).2).1 < d
  omega

theorem sensor_type_eq (category severity : String) (d : Int) (fp : Bool) (rng : RNG) :
    (_sensor_measurement category severity d fp rng).1.type = category := rfl

theorem sensor_id_mem (category severity : String) (d : Int) (fp : Bool) (rng : RNG) :
    (_sensor_measurement category severity d fp rng).1.sensor_id ∈ SENSOR_IDS category :=
  pyChoice_mem (SENSOR_IDS category) rng (SENSOR_IDS_ne_nil category)

/-! ## Payload range conformance -/

/-- The payload of a record lies within the bounds registered for its
`(category, severity)` pair, and its shape is the one registered for the
category. -/
def payload_in_range (category severity : String) : Payload → Prop
  | .traffic vc sp =>
      category = "Traffic" ∧
      (TRAFFIC_PAYLOAD_RANGES severity).1.1 ≤ vc ∧
      vc ≤ (TRAFFIC_PAYLOAD_RANGES severity).1.2 ∧
      (TRAFFIC_PAYLOAD_RANGES severity).2.1 ≤ sp ∧
      sp ≤ (TRAFFIC_PAYLOAD_RANGES severity).2.2
  | .cyber fa ui =>
      category = "Cybersecurity" ∧
      (CYBER_PAYLOAD_RANGES severity).1.1 ≤ fa ∧
      fa ≤ (CYBER_PAYLOAD_RANGES severity).1.2 ∧
      (CYBER_PAYLOAD_RANGES severity).2.1 ≤ ui ∧
      ui ≤ (CYBER_PAYLOAD_RANGES severity).2.2
  | .publicSafety an =>
      category = "Public Safety" ∧
      (PUBLIC_SAFETY_ANOMALY_RANGE severity).1 ≤ an ∧
      an ≤ (PUBLIC_SAFETY_ANOMALY_RANGE severity).2
  | .utilities ch ph =>
      category = "Utilities" ∧
      (UTILITIES_CHLORINE_RANGE severity).1 ≤ ch ∧
      ch ≤ (UTILITIES_CHLORINE_RANGE severity).2 ∧
      (6.5 : ℚ) ≤ ph ∧ ph ≤ (8.3 : ℚ)
  | .environmental pm =>
      category = "Environmental" ∧
      (ENVIRONMENTAL_PM25_RANGE severity).1 ≤ pm ∧
      pm ≤ (ENVIRONMENTAL_PM25_RANGE severity).2

theorem pyRound_uniform_bounds (a b : ℚ) (d : Nat) (A B : Int) (rng : RNG)
    (ha : (A : ℚ) = a * (10 : ℚ) ^ d) (hb : (B : ℚ) = b * (10 : ℚ) ^ d) (hab : a ≤ b) :
    a ≤ pyRound (pyUniform a b rng).1 d ∧ pyRound (pyUniform a b rng).1 d ≤ b := by
  obtain ⟨h1, h2⟩ := pyUniform_bounds a b rng hab
  exact pyRound_bounds _ a b d A B ha hb h1 h2

theorem traffic_payload_in_range (severity : String) (rng : RNG) :
    payload_in_range "Traffic" severity (_traffic_payload severity rng).1 := by
  unfold _traffic_payload
  dsimp only
  simp only [payload_in_range]
  unfold TRAFFIC_PAYLOAD_RANGES
  split_ifs
  · obtain ⟨h1, h2⟩ := randint_bounds 240 720 rng (by norm_num)
    obtain ⟨h3, h4⟩ := pyRound_uniform_bounds 26.0 38.0 1 260 380 (randint 240 720 rng).2
      (by norm_num) (by norm_num) (by norm_num)
    exact ⟨trivial, h1, h2, h3, h4⟩
  · obtain ⟨h1, h2⟩ := randint_bounds 680 1280 rng (by norm_num)
    obtain ⟨h3, h4⟩ := pyRound_uniform_bounds 16.0 26.0 1 160 260 (randint 680 1280 rng).2
      (by norm_num) (by norm_num) (by norm_num)
    exact ⟨trivial, h1, h2, h3, h4⟩
  · obtain ⟨h1, h2⟩ := randint_bounds 980 1560 rng (by norm_num)
    obtain ⟨h3, h4⟩ := pyRound_uniform_bounds 10.0 18.0 1 100 180 (randint 980 1560 rng).2
      (by norm_num) (by norm_num) (by norm_num)
    exact ⟨trivial, h1, h2, h3, h4⟩
  · obtain ⟨h1, h2⟩ := randint_bounds 1280 1850 rng (by norm_num)
    obtain ⟨h3, h4⟩ := pyRound_uniform_bounds 4.0 11.0 1 40 110 (randint 1280 1850 rng).2
      (by norm_num) (by norm_num) (by norm_num)
    exact ⟨trivial, h1, h2, h3, h4⟩

theorem cyber_payload_in_range (severity : String) (rng : RNG) :
    payload_in_range "Cybersecurity" severity (_cyber_payload severity rng).1 := by
  unfold _cyber_payload
  dsimp only
  simp only [payload_in_range]
  unfold CYBER_PAYLOAD_RANGES
  split_ifs
  · obtain ⟨h1, h2⟩ := randint_bounds 45 140 rng (by norm_num)
    obtain ⟨h3, h4⟩ := randint_bounds 4 12 (randint 45 140 rng).2 (by norm_num)
    exact ⟨trivial, h1, h2, h3, h4⟩
  · obtain ⟨h1, h2⟩ := randint_bounds 140 360 rng (by norm_num)
    obtain ⟨h3, h4⟩ := randint_bounds 8 24 (randint 140 360 rng).2 (by norm_num)
    exact ⟨trivial, h1, h2, h3, h4⟩
  · obtain ⟨h1, h2⟩ := randint_bounds 360 760 rng (by norm_num)
    obtain ⟨h3, h4⟩ := randint_bounds 18 44 (randint 360 760 rng).2 (by norm_num)
    exact ⟨trivial, h1, h2, h3, h4⟩
  · obtain ⟨h1, h2⟩ := randint_bounds 720 1200 rng (by norm_num)
    obtain ⟨h3, h4⟩ := randint_bounds 32 70 (randint 720 1200 rng).2 (by norm_num)
    exact ⟨trivial, h1, h2, h3, h4⟩

theorem public_safety_payload_in_range (severity : String) (rng : RNG) :
    payload_in_range "Public Safety" severity (_public_safety_payload severity rng).1 := by
  unfold _public_safety_payload
  dsimp only
  simp only [payload_in_range]
  unfold PUBLIC_SAFETY_ANOMALY_RANGE
  split_ifs
  · obtain ⟨h1, h2⟩ := pyRound_uniform_bounds 0.32 0.5 2 32 50 rng
      (by norm_num) (by norm_num) (by norm_num)
    exact ⟨trivial, h1, h2⟩
  · obtain ⟨h1, h2⟩ := pyRound_uniform_bounds 0.5 0.7 2 50 70 rng
      (by norm_num) (by norm_num) (by norm_num)
    exact ⟨trivial, h1, h2⟩
  · obtain ⟨h1, h2⟩ := pyRound_uniform_bounds 0.7 0.88 2 70 88 rng
      (by norm_num) (by norm_num) (by norm_num)
    exact ⟨trivial, h1, h2⟩
  · obtain ⟨h1, h2⟩ := pyRound_uniform_bounds 0.85 0.97 2 85 97 rng
      (by norm_num) (by norm_num) (by norm_num)
    exact ⟨trivial, h1, h2⟩

theorem utilities_payload_in_range (severity : String) (rng : RNG) :
    payload_in_range "Utilities" severity (_utilities_payload severity rng).1 := by
  unfold _utilities_payload
  dsimp only
  simp only [payload_in_range]
  unfold UTILITIES_CHLORINE_RANGE
  split_ifs
  · obtain ⟨h1, h2⟩ := pyRound_uniform_bounds 0.8 1.3 2 80 130 rng
      (by norm_num) (by norm_num) (by norm_num)
    obtain ⟨h3, h4⟩ := pyRound_uniform_bounds 6.5 8.3 2 650 830 (pyUniform 0.8 1.3 rng).2
      (by norm_num) (by norm_num) (by norm_num)
    exact ⟨trivial, h1, h2, h3, h4⟩
  · obtain ⟨h1, h2⟩ := pyRound_uniform_bounds 0.6 1.6 2 60 160 rng
      (by norm_num) (by norm_num) (by norm_num)
    obtain ⟨h3, h4⟩ := pyRound_uniform_bounds 6.5 8.3 2 650 830 (pyUniform 0.6 1.6 rng).2
      (by norm_num) (by norm_num) (by norm_num)
    exact ⟨trivial, h1, h2, h3, h4⟩
  · obtain ⟨h1, h2⟩ := pyRound_uniform_bounds 0.45 1.8 2 45 180 rng
      (by norm_num) (by norm_num) (by norm_num)
    obtain ⟨h3, h4⟩ := pyRound_uniform_bounds 6.5 8.3 2 650 830 (pyUniform 0.45 1.8 rng).2
      (by norm_num) (by norm_num) (by norm_num)
    exact ⟨trivial, h1, h2, h3, h4⟩
  · obtain ⟨h1, h2⟩ := pyRound_uniform_bounds 0.3 2.0 2 30 200 rng
      (by norm_num) (by norm_num) (by norm_num)
    obtain ⟨h3, h4⟩ := pyRound_uniform_bounds 6.5 8.3 2 650 830 (pyUniform 0.3 2.0 rng).2
      (by norm_num) (by norm_num) (by norm_num)
    exact ⟨trivial, h1, h2, h3, h4⟩

theorem environmental_payload_in_range (severity : String) (rng : RNG) :
    payload_in_range "Environmental" severity (_environmental_payload severity rng).1 := by
  unfold _environmental_payload
  dsimp only
  simp only [payload_in_range]
  unfold ENVIRONMENTAL_PM25_RANGE
  split_ifs
  · obtain ⟨h1, h2⟩ := pyRound_uniform_bounds 14.0 32.0 1 140 320 rng
      (by norm_num) (by norm_num) (by norm_num)
    exact ⟨trivial, h1, h2⟩
  · obtain ⟨h1, h2⟩ := pyRound_uniform_bounds 28.0 60.0 1 280 600 rng
      (by norm_num) (by norm_num) (by norm_num)
    exact ⟨trivial, h1, h2⟩
  · obtain ⟨h1, h2⟩ := pyRound_uniform_bounds 54.0 96.0 1 540 960 rng
      (by norm_num) (by norm_num) (by norm_num)
    exact ⟨trivial, h1, h2⟩
  · obtain ⟨h1, h2⟩ := pyRound_uniform_bounds 90.0 150.0 1 900 1500 rng
      (by norm_num) (by norm_num) (by norm_num)
    exact ⟨trivial, h1, h2⟩

theorem sensor_payload_in_range (category severity : String) (rng : RNG)
    (hc : category ∈ CATEGORIES) :
    payload_in_range category severity (_sensor_payload category severity rng).1 := by
  unfold _sensor_payload
  split_ifs with h1 h2 h3 h4
  · subst h1; exact traffic_payload_in_range severity rng
  · subst h2; exact cyber_payload_in_range severity rng
  · subst h3; exact public_safety_payload_in_range severity rng
  · subst h4; exact utilities_payload_in_range severity rng
  · have h5 : category = "Environmental" := by
      simp only [CATEGORIES, List.mem_cons, List.not_mem_nil, or_false] at hc
      tauto
    subst h5; exact environmental_payload_in_range severity rng

theorem sensor_measurement_payload_in_range (category severity : String) (d : Int)
    (fp : Bool) (rng : RNG) (hc : category ∈ CATEGORIES) :
    payload_in_range category severity
      (_sensor_measurement category severity d fp rng).1.payload :=
  sensor_payload_in_range category severity _ hc

/-! ## Clock-shift structure of one run -/

/-- Shift the four timestamp fields of a record by `dt` minutes, leaving
every other field unchanged. -/
def shiftRecord (dt : Int) (r : IncidentRecord) : IncidentRecord :=
  { r with
    detected_at := r.detected_at + dt,
    acknowledged_at := r.acknowledged_at.map (· + dt),
    resolved_at := r.resolved_at.map (· + dt),
    sensor_measurement :=
      { r.sensor_measurement with
        captured_at := r.sensor_measurement.captured_at + dt } }

theorem ack_res_shift (status severity : String) (d dt : Int) (rng : RNG) :
    _acknowledged_and_resolved status severity (d + dt) rng =
      (((_acknowledged_and_resolved status severity d rng).1.1.map (· + dt),
        (_acknowledged_and_resolved status severity d rng).1.2.map (· + dt)),
       (_acknowledged_and_resolved status severity d rng).2) := by
  simp only [_acknowledged_and_resolved]
  split_ifs <;> simp [Prod.mk.injEq] <;> omega

theorem sensor_measurement_shift (category severity : String) (d dt : Int) (fp : Bool)
    (rng : RNG) :
    _sensor_measurement category severity (d + dt) fp rng =
      ({ (_sensor_measurement category severity d fp rng).1 with
          captured_at := (_sensor_measurement category severity d fp rng).1.captured_at + dt },
       (_sensor_measurement category severity d fp rng).2) := by
  simp only [_sensor_measurement]
  have h : ∀ x : Int, d + dt - x = d - x + dt := fun x => by ring
  rw [h]

theorem build_record_shift (now dt : Int) (index : Nat) (rng : RNG) :
    _build_record (now + dt) index rng =
      (shiftRecord dt (_build_record now index rng).1, (_build_record now index rng).2) := by
  rw [build_record_decomp, build_record_decomp]
  have hdet : detOf (now + dt) index rng = detOf now index rng + dt := by
    unfold detOf _detected_at
    dsimp only
    ring
  have har : arOf (now + dt) index rng =
      (((arOf now index rng).1.1.map (· + dt), (arOf now index rng).1.2.map (· + dt)),
       (arOf now index rng).2) := by
    unfold arOf
    rw [hdet]
    exact ack_res_shift _ _ _ _ _
  have hloc : locOf (now + dt) index rng = locOf now index rng := by
    unfold locOf
    rw [har]
  have hrc : rcOf (now + dt) index rng = rcOf now index rng := by
    unfold rcOf
    rw [hloc]
  have hsm : smOf (now + dt) index rng =
      ({ (smOf now index rng).1 with
          captured_at := (smOf now index rng).1.captured_at + dt },
       (smOf now index rng).2) := by
    unfold smOf
    rw [hrc, hdet]
    exact sensor_measurement_shift _ _ _ _ _ _
  rw [hdet, har, hloc, hrc, hsm]
  simp [shiftRecord]

theorem build_records_shift (now dt : Int) (count : Nat) :
    ∀ (index : Nat) (rng : RNG),
      _build_records (now + dt) index count rng =
        (_build_records now index count rng).map (shiftRecord dt) := by
  induction count with
  | zero => intro i rng; rfl
  | succ k ih =>
      intro i rng
      show (_build_record (now + dt) i rng).1
          :: _build_records (now + dt) (i + 1) k (_build_record (now + dt) i rng).2
        = ((_build_record now i rng).1
          :: _build_records now (i + 1) k (_build_record now i rng).2).map (shiftRecord dt)
      rw [build_record_shift]
      dsimp only
      rw [ih (i + 1) (_build_record now i rng).2]
      simp

/-! ## Detection window bounds -/

theorem detOf_bounds (now : Int) (index : Nat) (rng : RNG) :
    now - 129600 - 3 * (index : Int) ≤ detOf now index rng ∧
    detOf now index rng ≤ now - 3 * (index : Int) := by
  obtain ⟨h1, h2⟩ := randint_bounds 0 (90 * 24 * 60) (rngAfterStat rng) (by norm_num)
  unfold detOf _detected_at
  dsimp only
  constructor <;> omega

/-! ## Generator positions: how many draws each helper consumes -/

theorem randint_snd (a b : Int) (rng : RNG) :
    (randint a b rng).2 = ⟨rng.g, rng.pos + 1⟩ := rfl

theorem randomUnit_snd (rng : RNG) :
    (randomUnit rng).2 = ⟨rng.g, rng.pos + 1⟩ := rfl

theorem pyChoice_snd (xs : List String) (rng : RNG) :
    (pyChoice xs rng).2 = ⟨rng.g, rng.pos + 1⟩ := rfl

theorem pyChoices_snd (xs : List String) (ws : List ℚ) (rng : RNG) :
    (pyChoices xs ws rng).2 = ⟨rng.g, rng.pos + 1⟩ := rfl

theorem detected_at_snd (now : Int) (index : Nat) (rng : RNG) :
    (_detected_at now index rng).2 = ⟨rng.g, rng.pos + 1⟩ := rfl

theorem sensor_status_snd (severity : String) (fp : Bool) (rng : RNG) :
    (_sensor_status severity fp rng).2 = ⟨rng.g, rng.pos + 1⟩ := by
  unfold _sensor_status
  split_ifs <;> rfl

/-- Number of draws the payload sampler consumes, by category. -/
def payloadDraws (category : String) : Nat :=
  if category = "Traffic" then 2
  else if category = "Cybersecurity" then 2
  else if category = "Public Safety" then 1
  else if category = "Utilities" then 2
  else 1

theorem sensor_payload_snd (category severity : String) (rng : RNG) :
    (_sensor_payload category severity rng).2
      = ⟨rng.g, rng.pos + payloadDraws category⟩ := by
  unfold _sensor_payload payloadDraws
  split_ifs <;> rfl

/-- Number of draws `_acknowledged_and_resolved` consumes, by status. -/
def ackResDraws (status : String) : Nat :=
  if status = "open" then 0 else if status = "acknowledged" then 1 else 2

theorem ack_res_snd (status severity : String) (d : Int) (rng : RNG) :
    (_acknowledged_and_resolved status severity d rng).2
      = ⟨rng.g, rng.pos + ackResDraws status⟩ := by
  unfold _acknowledged_and_resolved ackResDraws
  split_ifs <;> rfl

theorem root_cause_snd (severity : String) (fp : Bool) (rng : RNG) :
    (_root_cause severity fp rng).2 = ⟨rng.g, rng.pos + (if fp then 0 else 1)⟩ := by
  cases fp <;> rfl

theorem sensor_measurement_snd (category severity : String) (d : Int) (fp : Bool)
    (rng : RNG) :
    (_sensor_measurement category severity d fp rng).2
      = ⟨rng.g, rng.pos + (3 + payloadDraws category)⟩ := by
  show (_sensor_payload category severity
    (randint 1 12 (_sensor_status severity fp (pyChoice (SENSOR_IDS category) rng).2).2).2).2 = _
  rw [sensor_payload_snd, randint_snd, sensor_status_snd, pyChoice_snd]
  dsimp only
  refine congrArg (RNG.mk rng.g) ?_
  omega

/-- Number of draws one record build consumes: five fixed draws (category,
severity, status, detection time, false-positive flag), the
status-dependent acknowledged/resolved draws, one location draw, the root
cause draw unless flagged false positive, then sensor id, sensor status,
capture offset and the category-dependent payload draws. -/
def draw_count (category status : String) (false_positive : Bool) : Nat :=
  5 + ackResDraws status + 1 + (if false_positive then 0 else 1)
    + (3 + payloadDraws category)

theorem rcOf_isNone (now : Int) (index : Nat) (rng : RNG) :
    (rcOf now index rng).1.isNone = fpOf rng := by
  unfold rcOf
  cases h : fpOf rng <;> simp [_root_cause, h]

theorem build_record_draws (now : Int) (index : Nat) (rng : RNG) :
    ((_build_record now index rng).2).pos
      = rng.pos + draw_count ((_build_record now index rng).1.category)
          ((_build_record now index rng).1.status)
          ((_build_record now index rng).1.root_cause.isNone) := by
  rw [build_record_decomp]
  dsimp only
  rw [rcOf_isNone]
  unfold smOf
  rw [sensor_measurement_snd]
  unfold rcOf
  rw [root_cause_snd]
  unfold locOf _choose_location
  rw [pyChoice_snd]
  unfold arOf
  rw [ack_res_snd]
  unfold rngAfterFp
  rw [randomUnit_snd]
  unfold rngAfterDet
  rw [detected_at_snd]
  unfold rngAfterStat _pick_status
  rw [pyChoices_snd]
  unfold rngAfterSev _pick_severity
  rw [pyChoices_snd]
  unfold rngAfterCat
  rw [pyChoice_snd]
  unfold draw_count
  cases fpOf rng
  all_goals simp only [reduceIte]
  all_goals omega

/-! ## Prefix stability across dataset sizes -/

theorem take_build_records (now : Int) (k : Nat) :
    ∀ (c1 c2 index : Nat) (rng : RNG), k ≤ c1 → k ≤ c2 →
      (_build_records now index c1 rng).take k
        = (_build_records now index c2 rng).take k := by
  induction k with
  | zero => intro c1 c2 i rng h1 h2; simp
  | succ m ih =>
      intro c1 c2 i rng h1 h2
      obtain ⟨n1, rfl⟩ : ∃ n, c1 = n + 1 := ⟨c1 - 1, by omega⟩
      obtain ⟨n2, rfl⟩ : ∃ n, c2 = n + 1 := ⟨c2 - 1, by omega⟩
      show ((_build_record now i rng).1
          :: _build_records now (i + 1) n1 (_build_record now i rng).2).take (m + 1)
        = ((_build_record now i rng).1
          :: _build_records now (i + 1) n2 (_build_record now i rng).2).take (m + 1)
      simp only [List.take_succ_cons]
      rw [ih n1 n2 (i + 1) (_build_record now i rng).2 (by omega) (by omega)]

/-! ## Record-level properties -/

/-- Temporal ordering of one record's timestamps: the capture time strictly
precedes detection, and detection precedes acknowledgement precedes
resolution wherever the latter are present. -/
def temporal_ok (r : IncidentRecord) : Prop :=
  r.sensor_measurement.captured_at < r.detected_at ∧
  (∀ a, r.acknowledged_at = some a → r.detected_at ≤ a) ∧
  (∀ a b, r.acknowledged_at = some a → r.resolved_at = some b → a ≤ b)

/-- Presence of the optional timestamps matches the record's status. -/
def optional_fields_ok (r : IncidentRecord) : Prop :=
  (r.acknowledged_at.isSome = true
    ↔ (r.status = "acknowledged" ∨ r.status = "resolved")) ∧
  (r.resolved_at.isSome = true ↔ r.status = "resolved")

/-- Location, sensor id and sensor type agree with the record's category. -/
def category_consistent (r : IncidentRecord) : Prop :=
  r.location ∈ LOCATIONS r.category ∧
  r.sensor_measurement.sensor_id ∈ SENSOR_IDS r.category ∧
  r.sensor_measurement.type = r.category

/-- The impact string is the category's base impact exactly for low and
medium severity, and the base impact with the escalation suffix exactly for
high and critical severity. -/
def impact_ok (r : IncidentRecord) : Prop :=
  (r.impact = IMPACTS r.category ↔ (r.severity = "low" ∨ r.severity = "medium")) ∧
  (r.impact = IMPACTS r.category ++ " Escalation priority elevated."
    ↔ (r.severity = "high" ∨ r.severity = "critical"))

theorem build_temporal_ok (now : Int) (index : Nat) (rng : RNG) :
    temporal_ok (_build_record now index rng).1 := by
  rw [build_record_decomp]
  unfold temporal_ok
  dsimp only
  refine ⟨?_, ?_, ?_⟩
  · unfold smOf
    exact sensor_captured_lt _ _ _ _ _
  · unfold arOf
    exact (ack_res_le _ _ _ _).1
  · unfold arOf
    exact (ack_res_le _ _ _ _).2

theorem build_optional_fields_ok (now : Int) (index : Nat) (rng : RNG) :
    optional_fields_ok (_build_record now index rng).1 := by
  rw [build_record_decomp]
  unfold optional_fields_ok
  dsimp only
  unfold arOf
  exact ack_res_isSome (statOf rng) (sevOf rng) (detOf now index rng) (rngAfterFp rng)
    (statOf_mem rng)

theorem build_category_consistent (now : Int) (index : Nat) (rng : RNG) :
    category_consistent (_build_record now index rng).1 := by
  rw [build_record_decomp]
  unfold category_consistent
  dsimp only
  refine ⟨?_, ?_, ?_⟩
  · unfold locOf
    exact choose_location_mem _ _
  · unfold smOf
    exact sensor_id_mem _ _ _ _ _
  · unfold smOf
    exact sensor_type_eq _ _ _ _ _

theorem build_payload_in_range (now : Int) (index : Nat) (rng : RNG) :
    payload_in_range ((_build_record now index rng).1.category)
      ((_build_record now index rng).1.severity)
      ((_build_record now index rng).1.sensor_measurement.payload) := by
  rw [build_record_decomp]
  dsimp only
  unfold smOf
  exact sensor_measurement_payload_in_range _ _ _ _ _ (catOf_mem rng)

theorem impacts_ne_append (category : String) :
    IMPACTS category ≠ IMPACTS category ++ " Escalation priority elevated." := by
  intro h
  have hl := congrArg String.length h
  rw [String.length_append] at hl
  have hs : (" Escalation priority elevated.").length = 30 := by decide
  omega

theorem choose_impact_ok (category severity : String) (hs : severity ∈ SEVERITIES) :
    (_choose_impact category severity = IMPACTS category
      ↔ (severity = "low" ∨ severity = "medium")) ∧
    (_choose_impact category severity = IMPACTS category ++ " Escalation priority elevated."
      ↔ (severity = "high" ∨ severity = "critical")) := by
  have hne := impacts_ne_append category
  simp only [SEVERITIES, List.mem_cons, List.not_mem_nil, or_false] at hs
  rcases hs with h | h | h | h <;> subst h <;>
    simp [_choose_impact, hne, Ne.symm hne]

theorem build_impact_ok (now : Int) (index : Nat) (rng : RNG) :
    impact_ok (_build_record now index rng).1 := by
  rw [build_record_decomp]
  unfold impact_ok
  dsimp only
  exact choose_impact_ok (catOf rng) (sevOf rng) (sevOf_mem rng)

/-! ## Concrete draw streams and records used as witnesses -/

/-- The all-zero draw stream: every record comes out Traffic, low, open,
false-positive, with detection offset 0. -/
def gZero : Nat → Nat := fun _ => 0

/-- A draw stream whose record-0 detection offset (draw 3) is the maximal
129600 minutes while record 1 keeps offset 0: detection times increase. -/
def gLate : Nat → Nat := fun p => if p = 3 then 129600 else 0

/-- A draw stream whose status draw (position 2) lands on resolved and
whose false-positive draw (position 4) stays below the threshold, so the
record is resolved, not a false positive. -/
def gResolved : Nat → Nat := fun p => if p = 2 ∨ p = 4 then 2 ^ 53 - 1 else 0

/-- The single record of a one-record run at clock 0 over `gZero`. -/
def sampleRec : IncidentRecord := (_build_record 0 0 ⟨gZero, 0⟩).1

/-- The single record of a one-record run at clock 0 over `gResolved`:
its status is resolved and both optional timestamps are present. -/
def sampleRec2 : IncidentRecord := (_build_record 0 0 ⟨gResolved, 0⟩).1

/-! ## The claims -/

/-- C1, counterexample: `generate_dataset` reads the wall clock through
`datetime.now(UTC)` inside `_detected_at`, so two calls with the same
`(size, seed)` pair made at clock readings 0 and 1 already differ in the
first record's `detected_at`. The output is not byte-identical across
calls. -/
theorem c1_counterexample :
    (generate_dataset 0 1 gZero).map IncidentRecord.detected_at ≠
    (generate_dataset 1 1 gZero).map IncidentRecord.detected_at := by
  with_unfolding_all decide

/-- C1, amended: the dataset is fully determined by `(size, seed)` together
with the clock reading: a run whose clock reading is shifted by `dt`
produces the same records with `detected_at`, `acknowledged_at`,
`resolved_at` and the measurement's `captured_at` all shifted by `dt` and
every other field byte-identical. In particular two calls at the same
clock reading agree exactly. -/
theorem c1_amended_clock_shift (now dt : Int) (size : Nat) (g : Nat → Nat) :
    generate_dataset (now + dt) size g
      = (generate_dataset now size g).map (shiftRecord dt) :=
  build_records_shift now dt size 0 ⟨g, 0⟩

/-- C2, counterexample: the records of `generate_dataset(n1, s)` and
`generate_dataset(n2, s)` differ even at index 0 when the two calls read
different clocks (readings 0 and 1 here), because `detected_at` shifts with
the clock. -/
theorem c2_counterexample :
    ((generate_dataset 0 2 gZero).take 1).map IncidentRecord.detected_at ≠
    ((generate_dataset 1 3 gZero).take 1).map IncidentRecord.detected_at := by
  with_unfolding_all decide

/-- C2, amended: with the clock reading held fixed, records `0 .. k-1` of
`generate_dataset(n1, s)` and `generate_dataset(n2, s)` coincide for any
sizes `n1, n2 ≥ k` and the same seed stream: changing `size` only appends
or removes trailing records. -/
theorem c2_amended_take_stable (now : Int) (g : Nat → Nat) (k n1 n2 : Nat)
    (h1 : k ≤ n1) (h2 : k ≤ n2) :
    (generate_dataset now n1 g).take k = (generate_dataset now n2 g).take k :=
  take_build_records now k n1 n2 0 ⟨g, 0⟩ h1 h2

/-- Witness for the amended C2 at `k = 1`, `n1 = 2`, `n2 = 3`. -/
theorem c2_amended_take_stable_witness :
    (generate_dataset 0 2 gZero).take 1 = (generate_dataset 0 3 gZero).take 1 :=
  c2_amended_take_stable 0 gZero 1 2 3 (by norm_num) (by norm_num)

/-- C3: for every record of every generated dataset, the sensor
measurement's `captured_at` is strictly earlier than `detected_at`, and
`detected_at ≤ acknowledged_at ≤ resolved_at` wherever the latter are
present. -/
theorem c3_temporal_ordering (now : Int) (n : Nat) (g : Nat → Nat) (r : IncidentRecord)
    (h : r ∈ generate_dataset now n g) : temporal_ok r := by
  obtain ⟨i, rng2, rfl⟩ := mem_generate_dataset now n g r h
  exact build_temporal_ok now i rng2

/-- Witness for C3 on a concrete resolved record (both optional timestamps
present). -/
theorem c3_witness : temporal_ok sampleRec2 :=
  c3_temporal_ordering 0 1 gResolved sampleRec2 (List.Mem.head _)

/-- C4: `acknowledged_at` is present iff the status is acknowledged or
resolved, `resolved_at` is present iff the status is resolved, and
`_root_cause` returns `none` exactly when the record was flagged as a false
positive. (Every non-optional field is present by construction: the record
type makes them total.) -/
theorem c4_optional_fields (now : Int) (n : Nat) (g : Nat → Nat) (r : IncidentRecord)
    (h : r ∈ generate_dataset now n g) (severity : String) (fp : Bool) (rng : RNG) :
    optional_fields_ok r ∧ ((_root_cause severity fp rng).1 = none ↔ fp = true) := by
  obtain ⟨i, rng2, rfl⟩ := mem_generate_dataset now n g r h
  exact ⟨build_optional_fields_ok now i rng2, root_cause_none_iff severity fp rng⟩

/-- Witness for C4 on a concrete resolved record. -/
theorem c4_witness :
    optional_fields_ok sampleRec2 ∧
    ((_root_cause "low" true ⟨gZero, 0⟩).1 = none ↔ true = true) :=
  c4_optional_fields 0 1 gResolved sampleRec2 (List.Mem.head _) "low" true ⟨gZero, 0⟩

/-- C5: for every clock reading, seed stream and size `n`, the dataset has
exactly `n` records, the record at index `k` has id `1000 + k` (so ids are
unique and sequential from the fixed offset 1000) and a category from the
five fixed categories, and size 0 yields the empty list. Quantifying over
all seed streams covers the concrete scenario `generate(5, 20241202)`. -/
theorem c5_ids_and_length (now : Int) (g : Nat → Nat) (n k : Nat) (r : IncidentRecord)
    (h : (generate_dataset now n g)[k]? = some r) :
    (generate_dataset now n g).length = n ∧ r.id = 1000 + (k : Int) ∧
    r.category ∈ CATEGORIES ∧ generate_dataset now 0 g = [] := by
  obtain ⟨rng2, rfl⟩ := getElem?_build_records now n 0 k ⟨g, 0⟩ r h
  refine ⟨length_build_records now n 0 ⟨g, 0⟩, ?_, ?_, rfl⟩
  · rw [build_record_decomp]
    dsimp only
    omega
  · rw [build_record_decomp]
    dsimp only
    exact catOf_mem _

/-- Witness for C5 at size 5, index 0. -/
theorem c5_witness :
    (generate_dataset 0 5 gZero).length = 5 ∧ sampleRec.id = 1000 + ((0 : Nat) : Int) ∧
    sampleRec.category ∈ CATEGORIES ∧ generate_dataset 0 0 gZero = [] :=
  c5_ids_and_length 0 gZero 5 0 sampleRec rfl

/-- C6: every numeric field of the sensor payload lies within the bounds
registered for the record's `(category, severity)` pair, after the
per-field rounding, and the payload shape is the category's one. -/
theorem c6_payload_in_range (now : Int) (n : Nat) (g : Nat → Nat) (r : IncidentRecord)
    (h : r ∈ generate_dataset now n g) :
    payload_in_range r.category r.severity r.sensor_measurement.payload := by
  obtain ⟨i, rng2, rfl⟩ := mem_generate_dataset now n g r h
  exact build_payload_in_range now i rng2

/-- Witness for C6 on a concrete record. -/
theorem c6_witness :
    payload_in_range sampleRec.category sampleRec.severity
      sampleRec.sensor_measurement.payload :=
  c6_payload_in_range 0 1 gZero sampleRec (List.Mem.head _)

/-- C7: every record's location belongs to the location set of its
category, its sensor id to the sensor-id set of its category, and the
measurement's type equals the category. -/
theorem c7_category_consistency (now : Int) (n : Nat) (g : Nat → Nat) (r : IncidentRecord)
    (h : r ∈ generate_dataset now n g) : category_consistent r := by
  obtain ⟨i, rng2, rfl⟩ := mem_generate_dataset now n g r h
  exact build_category_consistent now i rng2

/-- Witness for C7 on a concrete record. -/
theorem c7_witness : category_consistent sampleRec :=
  c7_category_consistency 0 1 gZero sampleRec (List.Mem.head _)

/-- C8, counterexample: `detected_at` is not strictly decreasing along the
dataset: over the stream `gLate` record 0 detects 129600 minutes back but
record 1 only 3 minutes back, so record 1 is strictly later than record 0
although it has the larger index. -/
theorem c8_counterexample :
    ¬ ((generate_dataset 0 2 gLate).map IncidentRecord.detected_at).Pairwise
      (fun a b => b < a) := by
  with_unfolding_all decide

/-- C8, amended: the record at index `k` detects inside the moving window
`[now - 129600 - 3k, now - 3k]`: the window's bounds strictly decrease
with the index (3 minutes per index), but within the 90-day (129600
minute) random offset the order of nearby records can invert, as the
counterexample shows; strict decrease is only forced at index gaps
exceeding 43200. -/
theorem c8_amended_window_bound (now : Int) (n : Nat) (g : Nat → Nat) (k : Nat)
    (r : IncidentRecord) (h : (generate_dataset now n g)[k]? = some r) :
    now - 129600 - 3 * (k : Int) ≤ r.detected_at ∧
    r.detected_at ≤ now - 3 * (k : Int) := by
  obtain ⟨rng2, rfl⟩ := getElem?_build_records now n 0 k ⟨g, 0⟩ r h
  rw [build_record_decomp]
  dsimp only
  obtain ⟨h1, h2⟩ := detOf_bounds now (0 + k) rng2
  constructor <;> omega

/-- Witness for the amended C8 at index 0 of a one-record run. -/
theorem c8_witness :
    0 - 129600 - 3 * ((0 : Nat) : Int) ≤ sampleRec.detected_at ∧
    sampleRec.detected_at ≤ 0 - 3 * ((0 : Nat) : Int) :=
  c8_amended_window_bound 0 1 gZero 0 sampleRec rfl

/-- C9, counterexample: the number of generator draws one record build
consumes is not fixed: the all-zero stream yields an open false-positive
Traffic record (11 draws) while `gResolved` yields a resolved
non-false-positive Traffic record (14 draws). -/
theorem c9_counterexample :
    ((_build_record 0 0 ⟨gZero, 0⟩).2).pos ≠ ((_build_record 0 0 ⟨gResolved, 0⟩).2).pos := by
  with_unfolding_all decide

/-- C9, amended: the number of draws a record build consumes is determined
by the drawn category, status and false-positive flag alone — five fixed
draws, plus 0/1/2 for an open/acknowledged/resolved status, plus one
location draw, plus one root-cause draw unless flagged false positive,
plus three sensor draws and the category's payload draws — independent of
the record index, the seed stream and the clock. -/
theorem c9_amended_draw_count (now : Int) (index : Nat) (rng : RNG) :
    ((_build_record now index rng).2).pos
      = rng.pos + draw_count ((_build_record now index rng).1.category)
          ((_build_record now index rng).1.status)
          ((_build_record now index rng).1.root_cause.isNone) :=
  build_record_draws now index rng

/-- C10: the impact equals `IMPACTS[category]` exactly when severity is low
or medium, and equals it with the suffix `" Escalation priority elevated."`
appended exactly when severity is high or critical. -/
theorem c10_impact_rule (now : Int) (n : Nat) (g : Nat → Nat) (r : IncidentRecord)
    (h : r ∈ generate_dataset now n g) : impact_ok r := by
  obtain ⟨i, rng2, rfl⟩ := mem_generate_dataset now n g r h
  exact build_impact_ok now i rng2

/-- Witness for C10 on a concrete record. -/
theorem c10_witness : impact_ok sampleRec :=
  c10_impact_rule 0 1 gZero sampleRec (List.Mem.head _)
